import Mathlib

/-!
Verification development for the ESP32 RTSP microphone firmware
(`src/esp32_rtsp_mic_birdnetgo/esp32_rtsp_mic_birdnetgo.ino` and the Web UI
translation unit `src/unnamed/part_000`).

Shallow embedding conventions:
* C `float` arithmetic is modelled over `ℚ` (exact rationals); the float
  literals `0.7f`, `0.45f`, `0.5f` are modelled as `7/10`, `9/20`, `1/2`.
  No claim below depends on float rounding behaviour.
* Machine integers are `Nat`/`Int` with explicit `% 2^w` where C overflow
  or narrowing semantics matter (`uint16_t`, `uint32_t` casts, `++` wraps).
* Hardware / flash / network side effects that the firmware merely invokes
  (flash persistence `Preferences`, `WiFi.setTxPower`, `ESP.restart`,
  I2S driver reinstall) are recorded by ghost counters in the state so that
  theorems can observe whether and how often they were triggered.
* The global mutable variables of the two translation units are collected
  into one structure `Sys`; each modelled C function is a pure function on
  `Sys` (plus explicit inputs for bytes read from the network / I2S).
-/

/- The arithmetic of `ℚ` in core Lean is marked irreducible (it has native
replacements); re-enable definitional unfolding so that concrete witness
states evaluate with `decide`. -/
set_option allowUnsafeReducibility true in
attribute [semireducible] Rat.add Rat.sub Rat.mul Rat.div Rat.inv Rat.neg Rat.blt

namespace BirdMic

/-- Truncation of a rational toward zero, the behaviour of a C cast from a
float value to a signed integer type (used for `(int16_t)amplified`). -/
def truncQ (q : ℚ) : Int :=
  if 0 ≤ q then ⌊q⌋ else ⌈q⌉

/-- C cast of a nonnegative float value to `uint16_t` /`uint32_t`
(truncation toward zero; all modelled values are small enough not to wrap). -/
def natOfQ (q : ℚ) : Nat :=
  (⌊q⌋).toNat

/-- C cast `(uint32_t) <int>`: two's-complement wrap into `[0, 2^32)`. -/
def u32ofInt (i : Int) : Nat :=
  (i % 4294967296).toNat

/-- C cast `(uint16_t) <int>`: wrap into `[0, 2^16)`. -/
def u16ofInt (i : Int) : Nat :=
  (i % 65536).toNat

/-- C cast `(uint8_t) <int>`: wrap into `[0, 2^8)`. -/
def u8ofInt (i : Int) : Nat :=
  (i % 256).toNat

/-- Byte swap of a `uint16_t` value (`(s << 8) | (s >> 8)` on `uint16_t`),
from `sendRTPPacket` (.ino lines 757-761).  The argument is the 16-bit
pattern of the sample, a `Nat` below `65536`. -/
def swap16 (n : Nat) : Nat :=
  (n % 256) * 256 + (n / 256) % 256

/-- Arithmetic right shift of a (32-bit) signed integer by `k` bits,
the C expression `i2s_32bit_buffer[i] >> i2sShiftBits` (.ino line 842). -/
def asr (x : Int) (k : Nat) : Int :=
  Int.fdiv x (2 ^ k)

/-- The biquad high-pass filter section (`struct Biquad`, .ino lines 124-133):
coefficients and the two-sample delay lines, over exact rationals. -/
structure Biquad where
  b0 : ℚ
  b1 : ℚ
  b2 : ℚ
  a1 : ℚ
  a2 : ℚ
  x1 : ℚ
  x2 : ℚ
  y1 : ℚ
  y2 : ℚ
deriving DecidableEq

/-- Method `Biquad::process` (.ino lines 127-131): returns the output sample and the
updated delay lines. -/
def Biquad.processPair (f : Biquad) (x : ℚ) : ℚ × Biquad :=
  let y := f.b0 * x + f.b1 * f.x1 + f.b2 * f.x2 - f.a1 * f.y1 - f.a2 * f.y2
  (y, { f with x2 := f.x1, x1 := x, y2 := f.y1, y1 := y })

/-- Method `Biquad::reset` (.ino line 132): zero the delay lines. -/
def Biquad.resetState (f : Biquad) : Biquad :=
  { f with x1 := 0, x2 := 0, y1 := 0, y2 := 0 }

/-- The five filter coefficients produced by the coefficient design step of
`updateHighpassCoeffs` (.ino lines 253-271). -/
structure HpfCoeffs where
  b0 : ℚ
  b1 : ℚ
  b2 : ℚ
  a1 : ℚ
  a2 : ℚ
deriving DecidableEq

/-- The coefficient design of `updateHighpassCoeffs` evaluates `cosf`/`sinf`
(.ino lines 255-256), transcendental float arithmetic with no exact rational
counterpart.  The development is therefore parametric in the design function
`design : sampleRate → clampedCutoff → coefficients`; no claim in this file
depends on the coefficient values, only on the cached derivation inputs and
the delay-line reset, which are modelled exactly. -/
def HpfDesign : Type := Nat → ℚ → HpfCoeffs

/-- An arbitrary concrete instantiation of `HpfDesign`, used only to
evaluate closed statements (counterexamples / witnesses); the statements
instantiated with it do not depend on the coefficient values. -/
def designAny : HpfDesign := fun _ _ => ⟨1, 0, 0, 0, 0⟩

/-- All global mutable state of the firmware that the modelled functions
touch (.ino lines 87-188 and the `extern` block of `src/unnamed/part_000`).
`saves`, `wifiReconfigs`, `hpfRecomputes` and `restarts` are ghost counters
recording invocations of `saveAudioSettings` (flash write),
`WiFi.setTxPower`, `updateHighpassCoeffs` and `ESP.restart` respectively:
those calls act on hardware outside the modelled state, and the counters
make them observable to theorems.  `currentWifiPowerLevel` stores the dBm
value of the `wifi_power_t` enum member (the enum-to-dBm map
`wifiPowerLevelToDbm`, .ino lines 193-209, is injective on the used
levels). `now` models `millis()`. -/
structure Sys where
  currentSampleRate : Nat
  currentGainFactor : ℚ
  currentBufferSize : Nat
  i2sShiftBits : Nat
  autoRecoveryEnabled : Bool
  autoThresholdEnabled : Bool
  scheduledResetEnabled : Bool
  resetIntervalHours : Nat
  minAcceptableRate : Nat
  performanceCheckInterval : Nat
  cpuFrequencyMhz : Nat
  wifiTxPowerDbm : ℚ
  currentWifiPowerLevel : ℚ
  highpassEnabled : Bool
  highpassCutoffHz : Nat
  hpf : Biquad
  hpfConfigSampleRate : Nat
  hpfConfigCutoff : Nat
  lastPeakAbs16 : Nat
  audioClipCount : Nat
  audioClippedLastBlock : Bool
  peakHoldAbs16 : Nat
  peakHoldUntilMs : Nat
  overheatProtectionEnabled : Bool
  overheatShutdownC : ℚ
  overheatLockoutActive : Bool
  overheatLatched : Bool
  overheatSensorFault : Bool
  overheatTripTemp : ℚ
  overheatTriggeredAt : Nat
  lastTemperatureC : ℚ
  lastTemperatureValid : Bool
  maxTemperature : ℚ
  isStreaming : Bool
  rtspServerEnabled : Bool
  clientConnected : Bool
  rtspSessionId : Nat
  rtpSequence : Nat
  rtpTimestamp : Nat
  rtpSSRC : Nat
  audioPacketsSent : Nat
  lastRTSPActivity : Nat
  lastStatsReset : Nat
  lastRtspPlayMs : Nat
  rtspPlayCount : Nat
  maxPacketRate : Nat
  minPacketRate : Nat
  randVal : Nat
  now : Nat
  saves : Nat
  wifiReconfigs : Nat
  hpfRecomputes : Nat
  restarts : Nat
deriving DecidableEq

/-- A baseline state mirroring the compiled-in defaults (.ino lines 71-188):
sample rate 48000, gain 1.2, buffer 1024, shift 12, HPF on at 500 Hz,
thermal protection on with an 80 °C limit, WiFi TX 19.5 dBm.  Used as the
starting point of concrete witnesses and counterexamples. -/
def baseSys : Sys where
  currentSampleRate := 48000
  currentGainFactor := 6/5
  currentBufferSize := 1024
  i2sShiftBits := 12
  autoRecoveryEnabled := true
  autoThresholdEnabled := true
  scheduledResetEnabled := false
  resetIntervalHours := 24
  minAcceptableRate := 50
  performanceCheckInterval := 15
  cpuFrequencyMhz := 160
  wifiTxPowerDbm := 39/2
  currentWifiPowerLevel := 39/2
  highpassEnabled := true
  highpassCutoffHz := 500
  hpf := ⟨1, 0, 0, 0, 0, 0, 0, 0, 0⟩
  hpfConfigSampleRate := 0
  hpfConfigCutoff := 0
  lastPeakAbs16 := 0
  audioClipCount := 0
  audioClippedLastBlock := false
  peakHoldAbs16 := 0
  peakHoldUntilMs := 0
  overheatProtectionEnabled := true
  overheatShutdownC := 80
  overheatLockoutActive := false
  overheatLatched := false
  overheatSensorFault := false
  overheatTripTemp := 0
  overheatTriggeredAt := 0
  lastTemperatureC := 0
  lastTemperatureValid := false
  maxTemperature := 0
  isStreaming := false
  rtspServerEnabled := true
  clientConnected := false
  rtspSessionId := 0
  rtpSequence := 0
  rtpTimestamp := 0
  rtpSSRC := 1126716024
  audioPacketsSent := 0
  lastRTSPActivity := 0
  lastStatsReset := 0
  lastRtspPlayMs := 0
  rtspPlayCount := 0
  maxPacketRate := 0
  minPacketRate := 4294967295
  randVal := 123456789
  now := 1000
  saves := 0
  wifiReconfigs := 0
  hpfRecomputes := 0
  restarts := 0

/-! ### PowerManager: WiFi TX power (claim C3) -/

/-- Tail of the supported-level table of `snapWifiTxDbm`
(`src/unnamed/part_000` line 58), i.e. `steps[1..]`; `steps[0] = -1.0`. -/
def wifiStepsTail : List ℚ :=
  [2, 5, 7, 17/2, 11, 13, 15, 17, 37/2, 19, 39/2]

/-- The full fixed ascending table of hardware-supported discrete TX power
levels, in dBm (`static const float steps[]`, `src/unnamed/part_000`
line 58). -/
def wifiSteps : List ℚ :=
  -1 :: wifiStepsTail

/-- The scan loop of `snapWifiTxDbm` (`src/unnamed/part_000` lines 61-64):
fold over the remaining table entries keeping `(best, bestd)` and updating
on a strictly smaller absolute difference. -/
def snapGo (dbm : ℚ) : ℚ × ℚ → List ℚ → ℚ × ℚ
  | acc, [] => acc
  | acc, s :: rest =>
      if |dbm - s| < acc.2 then snapGo dbm (s, |dbm - s|) rest
      else snapGo dbm acc rest

/-- Function `snapWifiTxDbm` (`src/unnamed/part_000` lines 57-66): snap a requested
WiFi TX power to the nearest supported step (first table entry on ties,
because the loop updates only on a strict improvement). -/
def snapWifiTxDbm (dbm : ℚ) : ℚ :=
  (snapGo dbm (-1, |dbm - (-1)|) wifiStepsTail).1

/-- Function `pickWifiPowerLevel` (.ino lines 212-225): the cascade returning the
lowest table level that is `≥` the requested dBm (the level is represented
by its dBm value, see `Sys.currentWifiPowerLevel`). -/
def pickWifiPowerLevel (dbm : ℚ) : ℚ :=
  if dbm ≤ -1 then -1
  else if dbm ≤ 2 then 2
  else if dbm ≤ 5 then 5
  else if dbm ≤ 7 then 7
  else if dbm ≤ 17/2 then 17/2
  else if dbm ≤ 11 then 11
  else if dbm ≤ 13 then 13
  else if dbm ≤ 15 then 15
  else if dbm ≤ 17 then 17
  else if dbm ≤ 37/2 then 37/2
  else if dbm ≤ 19 then 19
  else 39/2

/-- Function `applyWifiTxPower` (.ino lines 229-238): reconfigure the radio
(`WiFi.setTxPower`, counted by the ghost `wifiReconfigs`) only when the
picked level differs from the currently applied one. -/
def applyWifiTxPower (s : Sys) : Sys :=
  let desired := pickWifiPowerLevel s.wifiTxPowerDbm
  if desired ≠ s.currentWifiPowerLevel then
    { s with currentWifiPowerLevel := desired, wifiReconfigs := s.wifiReconfigs + 1 }
  else s

/-- Specification-side nearest-step predicate, written from the spec's words
(§4.7): `e` is a table entry whose absolute difference to the request is
minimal over the whole table. -/
def isNearestStep (dbm e : ℚ) : Bool :=
  wifiSteps.all fun e2 => |dbm - e| ≤ |dbm - e2|

/-- Specification-side mapping, written from the spec's words (§4.7): the
first entry of the fixed ascending table that is nearest to the request by
absolute difference (ties resolved toward the first closest in table
order = the first entry satisfying `isNearestStep`). -/
def nearestStepSpec (dbm : ℚ) : ℚ :=
  (wifiSteps.find? (isNearestStep dbm)).getD (39/2)

/-! ### High-pass filter coefficient cache (claim C8) -/

/-- Function `updateHighpassCoeffs` (.ino lines 241-276), parametric in the float
trig coefficient design (see `HpfDesign`).  Models exactly: the disabled
early-out, the cutoff clamp to `[10, 0.45*fs]` (`0.45f` as `9/20`), the
delay-line reset, and the cache fields `hpfConfigSampleRate` /
`hpfConfigCutoff` — the latter stores `(uint16_t)fc`, i.e. the clamped
cutoff, not the configured one.  The ghost `hpfRecomputes` counts
invocations. -/
def updateHighpassCoeffs (design : HpfDesign) (s : Sys) : Sys :=
  if ¬ s.highpassEnabled then
    { s with hpf := s.hpf.resetState,
             hpfConfigSampleRate := s.currentSampleRate,
             hpfConfigCutoff := s.highpassCutoffHz,
             hpfRecomputes := s.hpfRecomputes + 1 }
  else
    let fs : ℚ := s.currentSampleRate
    let fc0 : ℚ := s.highpassCutoffHz
    let fc1 : ℚ := if fc0 < 10 then 10 else fc0
    let fc : ℚ := if fc1 > fs * (9/20) then fs * (9/20) else fc1
    let c := design s.currentSampleRate fc
    { s with hpf := { b0 := c.b0, b1 := c.b1, b2 := c.b2, a1 := c.a1, a2 := c.a2,
                      x1 := 0, x2 := 0, y1 := 0, y2 := 0 },
             hpfConfigSampleRate := s.currentSampleRate,
             hpfConfigCutoff := natOfQ fc,
             hpfRecomputes := s.hpfRecomputes + 1 }

/-- The per-block staleness check of `streamAudio` (.ino line 835):
`highpassEnabled && (hpfConfigSampleRate != currentSampleRate ||
hpfConfigCutoff != highpassCutoffHz)`. -/
def hpfStale (s : Sys) : Bool :=
  s.highpassEnabled &&
    (s.hpfConfigSampleRate ≠ s.currentSampleRate || s.hpfConfigCutoff ≠ s.highpassCutoffHz)

/-! ### ReliabilitySupervisor threshold (claim C2) -/

/-- Function `computeRecommendedMinRate` (.ino lines 547-553): 70 % of the expected
packet rate, rounded (`+ 0.5f` then float-to-int truncation), floored at 5.
`0.7f` is modelled as `7/10`. -/
def computeRecommendedMinRate (s : Sys) : Nat :=
  let buf : Nat := max 1 s.currentBufferSize
  let expectedPktPerSec : ℚ := (s.currentSampleRate : ℚ) / (buf : ℚ)
  let rec0 : Nat := natOfQ (expectedPktPerSec * (7/10) + 1/2)
  if rec0 < 5 then 5 else rec0

/-- Function `restartI2S` (.ino lines 600-632): stops streaming, reallocates the
sample buffers and reinstalls the I2S driver (hardware effects outside the
model; allocation failure, which would call `ESP.restart`, is not modelled),
refreshes the HPF coefficients and resets the packet-rate extrema. -/
def restartI2S (design : HpfDesign) (s : Sys) : Sys :=
  let s := { s with isStreaming := false }
  let s := updateHighpassCoeffs design s
  { s with maxPacketRate := 0, minPacketRate := 4294967295 }

/-! ### HTTP configuration endpoint (claims C2, C3, C9) -/

/-- One request to the `/api/set` endpoint.  `key` and `raw` are the query
parameters as strings; `hasValue` models `web.hasArg("value")`.  `vFloat`
and `vInt` model the results of the Arduino core parsers
`String::toFloat` / `String::toInt` applied to `raw` (external library
code, carried as unconstrained inputs; no claim depends on the parse
function itself). -/
structure SetReq where
  key : String
  hasValue : Bool
  raw : String
  vFloat : ℚ
  vInt : Int

/-- The constant body `{"ok":true}` sent by `httpSet` (and by the accepted
branch of `httpThermalClear`). -/
def okResponse : String := "\x7b\"ok\":true\x7d"

/-- The body `{"ok":false}` sent by the rejected branch of
`httpThermalClear`. -/
def notOkResponse : String := "\x7b\"ok\":false\x7d"

/-- Function `saveAudioSettings` (.ino lines 510-538): persists all settings to
flash; modelled by the ghost counter `saves`. -/
def saveAudioSettings (s : Sys) : Sys :=
  { s with saves := s.saves + 1 }

/-- The state mutation of `httpSet` (`src/unnamed/part_000` lines 449-471):
the full key-dispatch chain (the source's string else-if cascade, written
as a match on the key; the keys are pairwise distinct so the two forms
coincide), with the numeric narrowing casts of
`argToUInt`/`argToUShort`/`argToUChar` (lines 445-447) and each branch's
range guard.  The build is the standard I2S one, so the `shift` branch
(`WEBUI_HAS_SHIFT_BITS = 1`) is present.  In the `oh_enable` branch the
source's conditional follow-up mutation (`if (!enabled) lockout = false`)
is written as a single conditional-field update.  Rejected and unknown
requests leave the state unchanged. -/
def httpSetState (design : HpfDesign) (s : Sys) (r : SetReq) : Sys :=
  match r.key with
  | "gain" =>
    if r.hasValue ∧ 1/10 ≤ r.vFloat ∧ r.vFloat ≤ 100 then
      restartI2S design (saveAudioSettings { s with currentGainFactor := r.vFloat })
    else s
  | "rate" =>
    let v := u32ofInt r.vInt
    if r.hasValue ∧ 8000 ≤ v ∧ v ≤ 96000 then
      let s2 : Sys := { s with currentSampleRate := v }
      restartI2S design (saveAudioSettings
        (if s2.autoThresholdEnabled then
          { s2 with minAcceptableRate := computeRecommendedMinRate s2 } else s2))
    else s
  | "buffer" =>
    let v := u16ofInt r.vInt
    if r.hasValue ∧ 256 ≤ v ∧ v ≤ 8192 then
      let s2 : Sys := { s with currentBufferSize := v }
      restartI2S design (saveAudioSettings
        (if s2.autoThresholdEnabled then
          { s2 with minAcceptableRate := computeRecommendedMinRate s2 } else s2))
    else s
  | "shift" =>
    let v := u8ofInt r.vInt
    if r.hasValue ∧ v ≤ 24 then
      restartI2S design (saveAudioSettings { s with i2sShiftBits := v })
    else s
  | "wifi_tx" =>
    if r.hasValue ∧ -1 ≤ r.vFloat ∧ r.vFloat ≤ 39/2 then
      saveAudioSettings (applyWifiTxPower { s with wifiTxPowerDbm := snapWifiTxDbm r.vFloat })
    else s
  | "auto_recovery" =>
    if r.raw = "on" ∨ r.raw = "off" then
      saveAudioSettings { s with autoRecoveryEnabled := r.raw = "on" }
    else s
  | "thr_mode" =>
    if r.raw = "auto" then
      saveAudioSettings
        { s with autoThresholdEnabled := true,
                 minAcceptableRate := computeRecommendedMinRate s }
    else if r.raw = "manual" then
      saveAudioSettings { s with autoThresholdEnabled := false }
    else s
  | "min_rate" =>
    let v := u32ofInt r.vInt
    if r.hasValue ∧ 5 ≤ v ∧ v ≤ 200 then
      saveAudioSettings { s with minAcceptableRate := v }
    else s
  | "check_interval" =>
    let v := u32ofInt r.vInt
    if r.hasValue ∧ 1 ≤ v ∧ v ≤ 60 then
      saveAudioSettings { s with performanceCheckInterval := v }
    else s
  | "sched_reset" =>
    if r.raw = "on" ∨ r.raw = "off" then
      saveAudioSettings { s with scheduledResetEnabled := r.raw = "on" }
    else s
  | "reset_hours" =>
    let v := u32ofInt r.vInt
    if r.hasValue ∧ 1 ≤ v ∧ v ≤ 168 then
      saveAudioSettings { s with resetIntervalHours := v }
    else s
  | "cpu_freq" =>
    let v := u32ofInt r.vInt
    if r.hasValue ∧ 40 ≤ v ∧ v ≤ 160 then
      saveAudioSettings { s with cpuFrequencyMhz := u8ofInt (v : Int) }
    else s
  | "hp_enable" =>
    if r.raw = "on" ∨ r.raw = "off" then
      saveAudioSettings (updateHighpassCoeffs design { s with highpassEnabled := r.raw = "on" })
    else s
  | "hp_cutoff" =>
    let v := u32ofInt r.vInt
    if r.hasValue ∧ 10 ≤ v ∧ v ≤ 10000 then
      saveAudioSettings (updateHighpassCoeffs design { s with highpassCutoffHz := u16ofInt (v : Int) })
    else s
  | "oh_enable" =>
    if r.raw = "on" ∨ r.raw = "off" then
      saveAudioSettings
        { s with overheatProtectionEnabled := r.raw = "on",
                 overheatLockoutActive :=
                   if r.raw = "on" then s.overheatLockoutActive else false }
    else s
  | "oh_limit" =>
    let v := u32ofInt r.vInt
    if r.hasValue ∧ 30 ≤ v ∧ v ≤ 95 then
      let snapped := 30 + ((v - 30) / 5) * 5
      saveAudioSettings { s with overheatShutdownC := (snapped : ℚ), overheatLockoutActive := false }
    else s
  | _ => s

/-- Handler `httpSet` (`src/unnamed/part_000` lines 449-472): the state mutation of
the if-else chain, followed by the single unconditional
`apiSendJSON("{\"ok\":true}")` at the end of the handler — the response does
not depend on which branch (if any) ran. -/
def httpSet (design : HpfDesign) (s : Sys) (r : SetReq) : Sys × String :=
  (httpSetState design s r, okResponse)

/-! ### ThermalGuard (claim C1) -/

/-- Function `isTemperatureValid` (.ino lines 302-306): plausible range
`[-20, 130]` °C.  `NaN`/`Inf` readings, unrepresentable in `ℚ`, are modelled
by out-of-range rationals (they fail the same check). -/
def isTemperatureValid (t : ℚ) : Bool :=
  -20 ≤ t ∧ t ≤ 130

/-- Function `checkTemperature` (.ino lines 332-393): one temperature sample of the
thermal guard.  Faithful to the source: the sensor-fault branch (invalid
reading) records the fault and clears the trip record but never touches the
persisted latch or the server flag; a valid reading restores the sensor; a
trip (`temp >= overheatShutdownC` while protection is active and the
transient lockout is clear) sets the transient lockout, records the trip
(`recordOverheatTrip`, lines 318-329, which sets the persisted
`overheatLatched` and persists it), stops the client and streaming, and
disables the RTSP server; cooling to at least one 5° step below the limit
clears only the transient lockout.  The trip-reason strings (formatted log
text) are not modelled; `persistOverheatNote` is the ghost `saves`
counter. -/
def checkTemperature (s : Sys) (temp : ℚ) : Sys :=
  if ¬ isTemperatureValid temp then
    if ¬ s.overheatSensorFault then
      { s with lastTemperatureValid := false,
               overheatSensorFault := true,
               overheatTripTemp := 0,
               overheatTriggeredAt := 0,
               saves := s.saves + 1 }
    else { s with lastTemperatureValid := false }
  else
    -- A valid reading: store it, clear a pending sensor fault (persisting
    -- once if it was set), and track the maximum.  After this point the
    -- source's `protectionActive` equals `overheatProtectionEnabled`,
    -- because the sensor fault was just cleared.
    let s1 : Sys := { s with
      lastTemperatureC := temp,
      lastTemperatureValid := true,
      overheatSensorFault := false,
      saves := s.saves + (if s.overheatSensorFault then 1 else 0),
      maxTemperature := if s.maxTemperature < temp then temp else s.maxTemperature }
    if s.overheatProtectionEnabled then
      if ¬ s.overheatLockoutActive ∧ s.overheatShutdownC ≤ temp then
        { s1 with overheatLockoutActive := true,
                  overheatTripTemp := temp,
                  overheatTriggeredAt := s.now,
                  overheatLatched := true,
                  saves := s1.saves + 1,
                  clientConnected := false,
                  isStreaming := false,
                  rtspServerEnabled := false }
      else if s.overheatLockoutActive ∧ temp ≤ s.overheatShutdownC - 5 then
        { s1 with overheatLockoutActive := false }
      else s1
    else
      { s1 with overheatLockoutActive := false }

/-- Handler `httpThermalClear` (`src/unnamed/part_000` lines 391-410): the explicit
acknowledgement operation.  Only when the persisted latch is set: clears
both latches and the trip record, re-enables (and restarts) the RTSP server
if it was disabled, persists, and answers `{"ok":true}`; otherwise answers
`{"ok":false}` without touching the state. -/
def httpThermalClear (s : Sys) : Sys × String :=
  if s.overheatLatched then
    -- The source restarts the RTSP server only `if (!rtspServerEnabled)`;
    -- writing the flag unconditionally is the same state outcome.
    (saveAudioSettings { s with overheatLatched := false,
                                overheatLockoutActive := false,
                                overheatTripTemp := 0,
                                overheatTriggeredAt := 0,
                                rtspServerEnabled := true }, okResponse)
  else (s, notOkResponse)

/-! ### SessionProtocol: request dispatch (claims C4, C6) -/

/-- Method `String::startsWith` of the Arduino string class, over requests carried
as byte lists (the source's `String` is a raw byte buffer). -/
def listStartsWith : List Nat → List Nat → Bool
  | _, [] => true
  | [], _ :: _ => false
  | a :: s, b :: p => if a = b then listStartsWith s p else false

/-- Byte sequence of the verb `"OPTIONS"` (ASCII). -/
def verbOPTIONS : List Nat := [79, 80, 84, 73, 79, 78, 83]

/-- Byte sequence of the verb `"DESCRIBE"` (ASCII). -/
def verbDESCRIBE : List Nat := [68, 69, 83, 67, 82, 73, 66, 69]

/-- Byte sequence of the verb `"SETUP"` (ASCII). -/
def verbSETUP : List Nat := [83, 69, 84, 85, 80]

/-- Byte sequence of the verb `"PLAY"` (ASCII). -/
def verbPLAY : List Nat := [80, 76, 65, 89]

/-- Byte sequence of the verb `"TEARDOWN"` (ASCII). -/
def verbTEARDOWN : List Nat := [84, 69, 65, 82, 68, 79, 87, 78]

/-- Byte sequence of the verb `"GET_PARAMETER"` (ASCII). -/
def verbGETPARAM : List Nat := [71, 69, 84, 95, 80, 65, 82, 65, 77, 69, 84, 69, 82]

/-- The state effects of `handleRTSPCommand` (.ino lines 872-939).  The
request is the byte content of the parsed header.  The `CSeq` correlation
token extraction and the response text written to the client (pure output,
no state effect) are not modelled; `random(…)` for the `SETUP` session id
is modelled by the pre-drawn `randVal` field.  `PLAY` resets the sequence
number, timestamp and throughput counters and starts streaming; `TEARDOWN`
stops streaming; all other verbs (and unknown requests) leave the session
state unchanged. -/
def handleRTSPCommand (s : Sys) (request : List Nat) : Sys :=
  let s := { s with lastRTSPActivity := s.now }
  if listStartsWith request verbOPTIONS then s
  else if listStartsWith request verbDESCRIBE then s
  else if listStartsWith request verbSETUP then
    { s with rtspSessionId := s.randVal }
  else if listStartsWith request verbPLAY then
    { s with isStreaming := true,
             rtpSequence := 0,
             rtpTimestamp := 0,
             audioPacketsSent := 0,
             lastStatsReset := s.now,
             lastRtspPlayMs := s.now,
             rtspPlayCount := s.rtspPlayCount + 1 }
  else if listStartsWith request verbTEARDOWN then
    { s with isStreaming := false }
  else if listStartsWith request verbGETPARAM then s
  else s

/-! ### StreamPacketizer (claims C5, C6, C10) -/

/-- Function `writeAll` (.ino lines 717-725) over a modelled transport: `supply` is
the sequence of return values of successive `client.write` calls (bytes
accepted per call); a value `≤ 0` fails the whole write, and the loop exits
once the accepted bytes cover `len`.  Returns whether all `len` bytes were
written, and the remaining supply. -/
def writeAllNet : Nat → List Int → Bool × List Int
  | len, [] => if len = 0 then (true, []) else (false, [])
  | len, w :: rest =>
      if len = 0 then (true, w :: rest)
      else if w ≤ 0 then (false, rest)
      else writeAllNet (len - w.toNat) rest

/-- Function `sendRTPPacket` (.ino lines 727-773).  Samples are carried as their
16-bit patterns (`Nat < 65536`; the C code round-trips them through
`uint16_t` for the byte swap, preserving the pattern).  The interleaved
framing and RTP header bytes are built as in the source; the transport
observes only the lengths written (via `writeAllNet`).  On a disconnected
client the function returns before any mutation.  A short write on any of
the three segments stops streaming and skips the counter updates; a fully
successful send increments the 16-bit sequence number (mod `2^16`),
advances the 32-bit timestamp by the sample count (mod `2^32`) and counts
the packet. -/
def sendRTPPacket (s : Sys) (supply : List Int) (audioData : List Nat)
    (numSamples : Nat) : Sys × List Int × List Nat :=
  if ¬ s.clientConnected then (s, supply, audioData)
  else
    let payloadSize : Nat := (numSamples * 2) % 65536
    let packetSize : Nat := (12 + payloadSize) % 65536
    let inter : List Nat := [36, 0, packetSize / 256 % 256, packetSize % 256]
    let header : List Nat :=
      [128, 96,
       s.rtpSequence / 256 % 256, s.rtpSequence % 256,
       s.rtpTimestamp / 16777216 % 256, s.rtpTimestamp / 65536 % 256,
       s.rtpTimestamp / 256 % 256, s.rtpTimestamp % 256,
       s.rtpSSRC / 16777216 % 256, s.rtpSSRC / 65536 % 256,
       s.rtpSSRC / 256 % 256, s.rtpSSRC % 256]
    let swapped := audioData.map swap16
    -- `sizeof(inter) = 4`, `sizeof(header) = 12`
    let (ok1, sup1) := writeAllNet 4 supply
    if ¬ ok1 then ({ s with isStreaming := false }, sup1, swapped)
    else
      let (ok2, sup2) := writeAllNet 12 sup1
      if ¬ ok2 then ({ s with isStreaming := false }, sup2, swapped)
      else
        let (ok3, sup3) := writeAllNet payloadSize sup2
        if ¬ ok3 then ({ s with isStreaming := false }, sup3, swapped)
        else
          ({ s with rtpSequence := (s.rtpSequence + 1) % 65536,
                    rtpTimestamp := (s.rtpTimestamp + numSamples) % 4294967296,
                    audioPacketsSent := s.audioPacketsSent + 1 }, sup3, swapped)

/-- Whether all three `writeAll` calls of `sendRTPPacket` succeed on the
given transport supply (the same staged computation as in
`sendRTPPacket`); `false` means some segment suffered a short write. -/
def rtpWritesOk (supply : List Int) (numSamples : Nat) : Bool :=
  let payloadSize : Nat := (numSamples * 2) % 65536
  let (ok1, sup1) := writeAllNet 4 supply
  ok1 && (let (ok2, sup2) := writeAllNet 12 sup1
          ok2 && (writeAllNet payloadSize sup2).1)

/-! ### SignalConditioner (claim C7) -/

/-- The per-sample conditioning loop of `streamAudio` (.ino lines 839-851):
shift, optional high-pass, gain, peak tracking, clip detection and
saturation, and the `(int16_t)` cast of the saturated value.  Arguments
after the configuration are the loop-carried `hpf` delay lines, the `clipped`
flag and the running `peakAbs`; returns their final values and the output
sample list. -/
def conditionBlock (gain : ℚ) (shift : Nat) (hpOn : Bool) :
    Biquad → Bool → ℚ → List Int → Biquad × Bool × ℚ × List Int
  | hpf, clipped, peakAbs, [] => (hpf, clipped, peakAbs, [])
  | hpf, clipped, peakAbs, x :: xs =>
      let sample : ℚ := (asr x shift : Int)
      let sh := if hpOn then hpf.processPair sample else (sample, hpf)
      let amplified := sh.1 * gain
      let aabs := |amplified|
      let peakAbs2 := if aabs > peakAbs then aabs else peakAbs
      let clipped2 := clipped || decide (aabs > 32767)
      let a1 := if amplified > 32767 then (32767 : ℚ) else amplified
      let a2 := if a1 < -32768 then (-32768 : ℚ) else a1
      let r := conditionBlock gain shift hpOn sh.2 clipped2 peakAbs2 xs
      (r.1, r.2.1, r.2.2.1, truncQ a2 :: r.2.2.2)

/-- The sequence of amplified values (`amplified = sample * gain` after
shift and optional high-pass) produced by the conditioning loop — the
quantity the clip test and the saturation act on. -/
def ampSeq (gain : ℚ) (shift : Nat) (hpOn : Bool) : Biquad → List Int → List ℚ
  | _, [] => []
  | hpf, x :: xs =>
      let sample : ℚ := (asr x shift : Int)
      let sh := if hpOn then hpf.processPair sample else (sample, hpf)
      (sh.1 * gain) :: ampSeq gain shift hpOn sh.2 xs

/-- The saturation applied to an amplified value (.ino lines 848-850
followed by the `(int16_t)` cast): out-of-range values become exactly
`32767` / `-32768`. -/
def saturate16 (a : ℚ) : Int :=
  if a > 32767 then 32767 else if a < -32768 then -32768 else truncQ a

/-- The block-processing part of `streamAudio` after a successful
`i2s_read` (.ino lines 839-866, standard-I2S build): the conditioning loop
followed by the block metering update (peak, clip flag, clip counter
incremented once per clipped block, peak hold).  `raw` is the block read
from the hardware; returns the updated state and the conditioned output
samples (the send step that follows in the source is `sendRTPPacket`). -/
def processAudioBlock (s : Sys) (raw : List Int) : Sys × List Int :=
  let r := conditionBlock s.currentGainFactor s.i2sShiftBits s.highpassEnabled
             s.hpf false 0 raw
  let clipped := r.2.1
  let peakAbs0 := r.2.2.1
  let out := r.2.2.2
  let peakAbs := if peakAbs0 > 32767 then (32767 : ℚ) else peakAbs0
  let peak16 := natOfQ peakAbs
  -- The peak-hold update of the source (an if-else mutating two globals)
  -- is written as two conditional-field updates with the same outcome.
  ({ s with hpf := r.1,
            lastPeakAbs16 := peak16,
            audioClippedLastBlock := clipped,
            audioClipCount := s.audioClipCount + (if clipped then 1 else 0),
            peakHoldAbs16 :=
              if s.peakHoldAbs16 < peak16 then peak16
              else if 0 < s.peakHoldAbs16 ∧ s.peakHoldUntilMs < s.now then 0
              else s.peakHoldAbs16,
            peakHoldUntilMs :=
              if s.peakHoldAbs16 < peak16 then s.now + 3000
              else s.peakHoldUntilMs }, out)

/-- One `streamAudio` block iteration (.ino lines 834-866): the lazy HPF
staleness check and recompute (line 835) followed by the block
processing. -/
def streamAudioStep (design : HpfDesign) (s : Sys) (raw : List Int) : Sys × List Int :=
  let s := if hpfStale s then updateHighpassCoeffs design s else s
  processAudioBlock s raw

/-! ### SessionProtocol: the parse buffer (claim C4) -/

/-- The parse-buffer state of `processRTSP`: the raw 1024-byte global array
`rtspParseBuffer` (zero-initialized, as a C global), the cursor
`rtspParseBufferPos` (a C `int`, hence `Int` — the source can drive it
negative), and a flag recording that an out-of-bounds memory operation was
performed (a negative write offset, or `memmove` with a negative length,
which the C `size_t` conversion turns into a huge out-of-bounds copy —
undefined behaviour that the model flags instead of executing). -/
structure ParseSt where
  buf : List Nat
  pos : Int
  memFault : Bool
deriving DecidableEq

/-- The initial parse-buffer state (zero-filled BSS array, cursor 0). -/
def initParseSt : ParseSt :=
  { buf := List.replicate 1024 0, pos := 0, memFault := false }

/-- Write `bytes` into `buf` starting at offset `pos`
(`client.read(rtspParseBuffer + pos, n)`). -/
def listWrite (buf : List Nat) (pos : Nat) (bytes : List Nat) : List Nat :=
  buf.take pos ++ bytes ++ buf.drop (pos + bytes.length)

/-- Whether a byte list starts with the request terminator `"\r\n\r\n"`. -/
def startsCRLF2 : List Nat → Bool
  | 13 :: 10 :: 13 :: 10 :: _ => true
  | _ => false

/-- First index at which `"\r\n\r\n"` occurs in a byte list. -/
def findTerm : List Nat → Option Nat
  | [] => none
  | l@(_ :: t) => if startsCRLF2 l then some 0 else (findTerm t).map (· + 1)

/-- The C string the buffer holds: the bytes up to the first NUL.  This is
the haystack `strstr((char*)rtspParseBuffer, "\r\n\r\n")` scans and the
string `String((char*)rtspParseBuffer)` constructs — note that it is NOT
limited to the `rtspParseBufferPos` live prefix: stale bytes beyond the
cursor (left over from earlier requests) are scanned too. -/
def cString (buf : List Nat) : List Nat :=
  buf.takeWhile (· ≠ 0)

/-- Function `processRTSP` (.ino lines 942-972) for one poll in which the client is
connected and `incoming` bytes are available.  Models exactly: the overflow
clamp `available = sizeof - pos - 1` with the discard-and-reset branch when
it is `≤ 0`; the read into the buffer at the cursor; the `strstr` scan over
the whole NUL-terminated C string (see `cString`); on a hit, NUL-ing the
terminator, dispatching the request, and the
`memmove(buf, buf + headerLen, pos - headerLen)` / `pos -= headerLen`
compaction with C `int` arithmetic.  When a memory operation would go out
of bounds (negative write offset or negative `memmove` length, which C
converts to a huge `size_t`), the model sets `memFault` and leaves the
array contents untouched. -/
def processRTSP (st : Sys × ParseSt) (incoming : List Nat) : Sys × ParseSt :=
  let s := st.1
  let p := st.2
  if ¬ s.clientConnected then (s, p)
  else if incoming.length = 0 then (s, p)
  else
    let avail0 : Int := incoming.length
    let clamp := p.pos + avail0 ≥ 1024
    let avail : Int := if clamp then 1024 - p.pos - 1 else avail0
    if clamp ∧ avail ≤ 0 then (s, { p with pos := 0 })
    else if p.pos < 0 then (s, { p with memFault := true })
    else
      let wr := incoming.take avail.toNat
      let buf1 := listWrite p.buf p.pos.toNat wr
      let pos1 : Int := p.pos + (wr.length : Int)
      match findTerm (cString buf1) with
      | none => (s, { p with buf := buf1, pos := pos1 })
      | some i =>
          let buf2 := listWrite buf1 i [0]
          let req := cString buf2
          let s2 := handleRTSPCommand s req
          let headerLen : Int := (i : Int) + 4
          let mvLen : Int := pos1 - headerLen
          if mvLen < 0 then
            (s2, { buf := buf2, pos := pos1 - headerLen, memFault := true })
          else
            (s2, { buf := (buf2.drop headerLen.toNat).take mvLen.toNat ++ buf2.drop mvLen.toNat,
                   pos := pos1 - headerLen,
                   memFault := p.memFault })

/-- State used by several concrete witnesses: connected client, PLAYING,
nonzero packet counters. -/
def playSys : Sys :=
  { baseSys with
      clientConnected := true, isStreaming := true,
      rtpSequence := 7, rtpTimestamp := 100, audioPacketsSent := 3 }

/-- State used by the wrap-around witness: counters at their maxima. -/
def wrapSys : Sys :=
  { baseSys with
      clientConnected := true, isStreaming := true,
      rtpSequence := 65535, rtpTimestamp := 4294967295 }

/-! ## Theorems -/

/-! ### PowerManager lemmas (claim C3) -/

/-- The strict-improvement scan of `snapWifiTxDbm` returns either the seed
(which then minimizes the distance over the scanned list), or an element of
the scanned list that strictly beats the seed, strictly beats everything
before it, and weakly beats everything after it — i.e. the first global
minimizer. -/
theorem snapGo_first_min (dbm : ℚ) (l : List ℚ) : ∀ b : ℚ,
    ((snapGo dbm (b, |dbm - b|) l).1 = b ∧ ∀ e ∈ l, |dbm - b| ≤ |dbm - e|) ∨
    (∃ l₁ l₂, l = l₁ ++ (snapGo dbm (b, |dbm - b|) l).1 :: l₂ ∧
      |dbm - (snapGo dbm (b, |dbm - b|) l).1| < |dbm - b| ∧
      (∀ e ∈ l₁, |dbm - (snapGo dbm (b, |dbm - b|) l).1| < |dbm - e|) ∧
      (∀ e ∈ l₂, |dbm - (snapGo dbm (b, |dbm - b|) l).1| ≤ |dbm - e|)) := by
  induction l with
  | nil =>
      intro b
      left
      refine ⟨by simp [snapGo], ?_⟩
      intro e he
      cases he
  | cons s t ih =>
      intro b
      by_cases h : |dbm - s| < |dbm - b|
      · have hgo : snapGo dbm (b, |dbm - b|) (s :: t) = snapGo dbm (s, |dbm - s|) t := by
          simp [snapGo, h]
        rw [hgo]
        rcases ih s with ⟨hr, hall⟩ | ⟨l₁, l₂, hsplit, hlt, h1, h2⟩
        · right
          refine ⟨[], t, ?_, ?_, by simp, ?_⟩
          · rw [hr]
            simp
          · rw [hr]
            exact h
          · intro e he
            rw [hr]
            exact hall e he
        · right
          refine ⟨s :: l₁, l₂, ?_, lt_trans hlt h, ?_, h2⟩
          · rw [List.cons_append]
            exact congrArg _ hsplit
          · intro e he
            rcases List.mem_cons.mp he with rfl | he'
            · exact hlt
            · exact h1 e he'
      · have hgo : snapGo dbm (b, |dbm - b|) (s :: t) = snapGo dbm (b, |dbm - b|) t := by
          simp [snapGo, h]
        rw [hgo]
        rcases ih b with ⟨hr, hall⟩ | ⟨l₁, l₂, hsplit, hlt, h1, h2⟩
        · left
          refine ⟨hr, ?_⟩
          intro e he
          rcases List.mem_cons.mp he with rfl | he'
          · exact not_lt.mp h
          · exact hall e he'
        · right
          refine ⟨s :: l₁, l₂, ?_, hlt, ?_, h2⟩
          · rw [List.cons_append]
            exact congrArg _ hsplit
          · intro e he
            rcases List.mem_cons.mp he with rfl | he'
            · exact lt_of_lt_of_le hlt (not_lt.mp h)
            · exact h1 e he'

/-- Lemma: `find?` returns the head of the suffix when everything before it fails
the test and it passes. -/
theorem findSomeOfSplit {p : ℚ → Bool} : ∀ (l₁ : List ℚ) (r : ℚ) (l₂ : List ℚ),
    (∀ e ∈ l₁, p e = false) → p r = true →
    (l₁ ++ r :: l₂).find? p = some r := by
  intro l₁
  induction l₁ with
  | nil =>
      intro r l₂ _ h2
      simpa using List.find?_cons_of_pos l₂ h2
  | cons a t ih =>
      intro r l₂ h1 h2
      have ha : ¬ p a = true := by
        simp [h1 a (List.mem_cons_self a t)]
      simp only [List.cons_append]
      rw [List.find?_cons_of_neg _ ha]
      exact ih r l₂ (fun e he => h1 e (List.mem_cons_of_mem a he)) h2

/-- The source's strict-improvement snap is the first global minimizer of
the table, i.e. exactly what `nearestStepSpec` searches for. -/
theorem wifiFind_eq_snap (dbm : ℚ) :
    wifiSteps.find? (isNearestStep dbm) = some (snapWifiTxDbm dbm) := by
  unfold snapWifiTxDbm
  rcases snapGo_first_min dbm wifiStepsTail (-1) with ⟨hr, hall⟩ | ⟨l₁, l₂, hsplit, hlt, h1, h2⟩
  · rw [hr]
    rw [wifiSteps]
    apply List.find?_cons_of_pos
    simp only [isNearestStep, List.all_eq_true, decide_eq_true_eq]
    intro e he
    rcases List.mem_cons.mp he with rfl | he'
    · exact le_refl _
    · exact hall e (by simpa [wifiSteps] using he')
  · have hsteps : wifiSteps = ((-1 : ℚ) :: l₁) ++ (snapGo dbm (-1, |dbm - (-1)|) wifiStepsTail).1 :: l₂ := by
      rw [List.cons_append, wifiSteps]
      exact congrArg _ hsplit
    have hrmem : (snapGo dbm (-1, |dbm - (-1)|) wifiStepsTail).1 ∈ wifiSteps := by
      rw [hsteps]
      exact List.mem_append_right _ (List.mem_cons_self _ _)
    have hpr : isNearestStep dbm ((snapGo dbm (-1, |dbm - (-1)|) wifiStepsTail).1) = true := by
      simp only [isNearestStep, List.all_eq_true, decide_eq_true_eq]
      intro e he
      rw [hsteps] at he
      rcases List.mem_append.mp he with he' | he'
      · rcases List.mem_cons.mp he' with rfl | he''
        · exact le_of_lt hlt
        · exact le_of_lt (h1 e he'')
      · rcases List.mem_cons.mp he' with rfl | he''
        · exact le_refl _
        · exact h2 e he''
    have hneg : ∀ e ∈ (-1 : ℚ) :: l₁, isNearestStep dbm e = false := by
      intro e he
      have hgt : |dbm - (snapGo dbm (-1, |dbm - (-1)|) wifiStepsTail).1| < |dbm - e| := by
        rcases List.mem_cons.mp he with rfl | he'
        · exact hlt
        · exact h1 e he'
      rcases hb : isNearestStep dbm e with _ | _
      · rfl
      · exfalso
        have := (List.all_eq_true.mp hb) _ hrmem
        rw [decide_eq_true_eq] at this
        exact absurd (lt_of_le_of_lt this hgt) (lt_irrefl _)
    rw [hsteps]
    exact findSomeOfSplit _ _ _ hneg hpr

/-- The snapped value equals the spec-side first-nearest table entry. -/
theorem snap_eq_nearestStepSpec (dbm : ℚ) : snapWifiTxDbm dbm = nearestStepSpec dbm := by
  unfold nearestStepSpec
  rw [wifiFind_eq_snap]
  rfl

/-- The snapped value is a table entry. -/
theorem snap_mem_wifiSteps (dbm : ℚ) : snapWifiTxDbm dbm ∈ wifiSteps :=
  List.mem_of_find?_eq_some (wifiFind_eq_snap dbm)

/-- Function `pickWifiPowerLevel` is the identity on table entries: applying the
power after the HTTP-path snap selects exactly the snapped level. -/
theorem pick_fix (x : ℚ) (hx : x ∈ wifiSteps) : pickWifiPowerLevel x = x := by
  simp only [wifiSteps, wifiStepsTail, List.mem_cons, List.not_mem_nil, or_false] at hx
  rcases hx with rfl | rfl | rfl | rfl | rfl | rfl | rfl | rfl | rfl | rfl | rfl | rfl <;>
    norm_num [pickWifiPowerLevel]

/-- Applying the TX power right after the HTTP-path snap yields the
first-nearest table level and reconfigures the radio only on a change. -/
theorem applyWifi_snapped (s : Sys) (v : ℚ) :
    ((applyWifiTxPower { s with wifiTxPowerDbm := snapWifiTxDbm v }).currentWifiPowerLevel =
      nearestStepSpec v) ∧
    ((applyWifiTxPower { s with wifiTxPowerDbm := snapWifiTxDbm v }).wifiReconfigs =
      s.wifiReconfigs + if nearestStepSpec v = s.currentWifiPowerLevel then 0 else 1) := by
  have hfix := pick_fix _ (snap_mem_wifiSteps v)
  have hsnap := snap_eq_nearestStepSpec v
  have hfix2 : pickWifiPowerLevel (nearestStepSpec v) = nearestStepSpec v := hsnap ▸ hfix
  simp only [applyWifiTxPower, hsnap, hfix2]
  by_cases heq : nearestStepSpec v = s.currentWifiPowerLevel
  · rw [if_neg (fun hcon => hcon heq), if_pos heq]
    exact ⟨heq.symm, by simp⟩
  · rw [if_pos heq, if_neg heq]
    exact ⟨rfl, rfl⟩

/-- C3: for every requested transmit power accepted by the `wifi_tx` setter
(the range the handler admits, `[-1, 19.5]` dBm), the applied hardware
power level is the entry of the fixed ascending table nearest to the
request by absolute difference, ties toward the first closest entry in
table order; and the radio is reconfigured (exactly one `WiFi.setTxPower`
call) only when that level differs from the currently applied one. -/
theorem C3_tx_power_nearest (design : HpfDesign) (s : Sys) (r : SetReq)
    (hk : r.key = "wifi_tx") (hv : r.hasValue = true)
    (h1 : -1 ≤ r.vFloat) (h2 : r.vFloat ≤ 39/2) :
    ((httpSet design s r).1.currentWifiPowerLevel = nearestStepSpec r.vFloat) ∧
    ((httpSet design s r).1.wifiReconfigs =
      s.wifiReconfigs + if nearestStepSpec r.vFloat = s.currentWifiPowerLevel then 0 else 1) := by
  have h := applyWifi_snapped s r.vFloat
  simp only [httpSet, httpSetState, hk]
  rw [if_pos ⟨hv, h1, h2⟩]
  simp only [saveAudioSettings]
  exact h

/-- Witness for C3 at the concrete request 3 dBm from the default state
(nearest step 2 dBm, differing from the applied 19.5 dBm level). -/
theorem C3_tx_power_nearest_witness :
    ((httpSet designAny baseSys ⟨"wifi_tx", true, "3.0", 3, 3⟩).1.currentWifiPowerLevel =
      nearestStepSpec 3) ∧
    ((httpSet designAny baseSys ⟨"wifi_tx", true, "3.0", 3, 3⟩).1.wifiReconfigs =
      baseSys.wifiReconfigs + if nearestStepSpec 3 = baseSys.currentWifiPowerLevel then 0 else 1) :=
  C3_tx_power_nearest designAny baseSys ⟨"wifi_tx", true, "3.0", 3, 3⟩ rfl rfl
    (by norm_num) (by norm_num)

/-! ### ThermalGuard lemmas (claim C1) -/

/-- No temperature sample ever clears the persisted latch or re-enables the
server: `checkTemperature` preserves `overheatLatched = true` together with
`rtspServerEnabled = false`. -/
theorem checkTemp_keeps_latch (s : Sys) (t : ℚ)
    (hl : s.overheatLatched = true) (hs : s.rtspServerEnabled = false) :
    (checkTemperature s t).overheatLatched = true ∧
    (checkTemperature s t).rtspServerEnabled = false := by
  unfold checkTemperature
  split_ifs <;> simp_all

/-- The preservation of the persisted latch extends to arbitrary
temperature-sample sequences. -/
theorem foldTemp_keeps_latch (ts : List ℚ) : ∀ s : Sys,
    s.overheatLatched = true → s.rtspServerEnabled = false →
    (ts.foldl checkTemperature s).overheatLatched = true ∧
    (ts.foldl checkTemperature s).rtspServerEnabled = false := by
  induction ts with
  | nil =>
      intro s hl hs
      exact ⟨hl, hs⟩
  | cons t ts ih =>
      intro s hl hs
      have h := checkTemp_keeps_latch s t hl hs
      simpa using ih (checkTemperature s t) h.1 h.2

/-- C1: a valid temperature sample reaching the shutdown limit (protection
enabled, sensor healthy, transient lockout clear) sets the persisted latch,
records the trip, ends the streaming session and disables the RTSP server;
after every subsequent temperature-sample sequence the persisted latch is
still set and serving is still disabled; the explicit thermal-clear
acknowledgement clears the latch and re-enables serving. -/
theorem C1_thermal_latch (s : Sys) (t : ℚ)
    (hprot : s.overheatProtectionEnabled = true)
    (hfault : s.overheatSensorFault = false)
    (hlock : s.overheatLockoutActive = false)
    (hv1 : -20 ≤ t) (hv2 : t ≤ 130)
    (htrip : s.overheatShutdownC ≤ t) :
    ((checkTemperature s t).overheatLatched = true ∧
     (checkTemperature s t).rtspServerEnabled = false ∧
     (checkTemperature s t).isStreaming = false ∧
     (checkTemperature s t).clientConnected = false ∧
     (checkTemperature s t).overheatTripTemp = t) ∧
    (∀ ts : List ℚ,
      (ts.foldl checkTemperature (checkTemperature s t)).overheatLatched = true ∧
      (ts.foldl checkTemperature (checkTemperature s t)).rtspServerEnabled = false) ∧
    ((httpThermalClear (checkTemperature s t)).1.overheatLatched = false ∧
     (httpThermalClear (checkTemperature s t)).1.rtspServerEnabled = true) := by
  have hstep : (checkTemperature s t).overheatLatched = true ∧
      (checkTemperature s t).rtspServerEnabled = false ∧
      (checkTemperature s t).isStreaming = false ∧
      (checkTemperature s t).clientConnected = false ∧
      (checkTemperature s t).overheatTripTemp = t := by
    unfold checkTemperature
    split_ifs <;> simp_all [isTemperatureValid]
  refine ⟨hstep, ?_, ?_⟩
  · intro ts
    exact foldTemp_keeps_latch ts _ hstep.1 hstep.2.1
  · unfold httpThermalClear
    rw [if_pos hstep.1]
    simp [saveAudioSettings]

/-- Witness for C1 along the spec's trace `[70, 82, 76]` with limit 80 °C:
no latch at 70, persisted latch plus serving disabled at 82, both unchanged
through the 76 sample, and cleared by the acknowledgement. -/
theorem C1_thermal_latch_witness :
    ((checkTemperature
        (checkTemperature { baseSys with clientConnected := true, isStreaming := true } 70)
        82).overheatLatched = true ∧
     (checkTemperature
        (checkTemperature { baseSys with clientConnected := true, isStreaming := true } 70)
        82).rtspServerEnabled = false ∧
     (checkTemperature
        (checkTemperature { baseSys with clientConnected := true, isStreaming := true } 70)
        82).isStreaming = false ∧
     (checkTemperature
        (checkTemperature { baseSys with clientConnected := true, isStreaming := true } 70)
        82).clientConnected = false ∧
     (checkTemperature
        (checkTemperature { baseSys with clientConnected := true, isStreaming := true } 70)
        82).overheatTripTemp = 82) ∧
    ((([76] : List ℚ).foldl checkTemperature
        (checkTemperature
          (checkTemperature { baseSys with clientConnected := true, isStreaming := true } 70)
          82)).overheatLatched = true ∧
     (([76] : List ℚ).foldl checkTemperature
        (checkTemperature
          (checkTemperature { baseSys with clientConnected := true, isStreaming := true } 70)
          82)).rtspServerEnabled = false) ∧
    ((httpThermalClear
        (checkTemperature
          (checkTemperature { baseSys with clientConnected := true, isStreaming := true } 70)
          82)).1.overheatLatched = false ∧
     (httpThermalClear
        (checkTemperature
          (checkTemperature { baseSys with clientConnected := true, isStreaming := true } 70)
          82)).1.rtspServerEnabled = true) := by
  have h := C1_thermal_latch
    (checkTemperature { baseSys with clientConnected := true, isStreaming := true } 70) 82
    (by decide) (by decide) (by decide) (by decide) (by decide) (by decide)
  exact ⟨h.1, h.2.1 [76], h.2.2⟩

/-! ### ReliabilitySupervisor threshold (claim C2) -/

/-- Function `restartI2S` never touches the packet-rate threshold. -/
theorem restartI2S_minRate (design : HpfDesign) (s : Sys) :
    (restartI2S design s).minAcceptableRate = s.minAcceptableRate := by
  simp only [restartI2S, updateHighpassCoeffs]
  split_ifs <;> rfl

/-- C2 counterexample: with auto-threshold mode enabled and the threshold
sitting at its recomputed value 33 (sample rate 48000, buffer 1024), a
manual `min_rate` write of 50 through the set endpoint changes
`minAcceptableRate` to 50, breaking the claimed invariant — the setter does
not check `autoThresholdEnabled`. -/
theorem C2_manual_write_counterexample :
    ({ baseSys with minAcceptableRate := 33 }).autoThresholdEnabled = true ∧
    computeRecommendedMinRate { baseSys with minAcceptableRate := 33 } = 33 ∧
    (httpSet designAny { baseSys with minAcceptableRate := 33 }
        ⟨"min_rate", true, "50", 50, 50⟩).1.minAcceptableRate = 50 ∧
    (httpSet designAny { baseSys with minAcceptableRate := 33 }
        ⟨"min_rate", true, "50", 50, 50⟩).1.minAcceptableRate ≠
      computeRecommendedMinRate
        (httpSet designAny { baseSys with minAcceptableRate := 33 }
          ⟨"min_rate", true, "50", 50, 50⟩).1 := by
  refine ⟨rfl, by decide, by decide, by decide⟩

/-- C2 as amended: with auto-threshold mode enabled, an accepted change of
the sample rate or of the buffer size immediately recomputes
`minAcceptableRate` as `max(5, round(0.7 × sampleRate / bufferSize))`
(the value of `computeRecommendedMinRate` on the updated configuration);
however, an accepted manual `min_rate` write (range 5-200) overwrites
`minAcceptableRate` even while auto mode is enabled — it is not ignored. -/
theorem C2_threshold_amended (design : HpfDesign) (s : Sys) (r : SetReq)
    (hauto : s.autoThresholdEnabled = true) :
    (r.key = "rate" → r.hasValue = true →
      8000 ≤ u32ofInt r.vInt → u32ofInt r.vInt ≤ 96000 →
      (httpSet design s r).1.minAcceptableRate =
        computeRecommendedMinRate { s with currentSampleRate := u32ofInt r.vInt }) ∧
    (r.key = "buffer" → r.hasValue = true →
      256 ≤ u16ofInt r.vInt → u16ofInt r.vInt ≤ 8192 →
      (httpSet design s r).1.minAcceptableRate =
        computeRecommendedMinRate { s with currentBufferSize := u16ofInt r.vInt }) ∧
    (r.key = "min_rate" → r.hasValue = true →
      5 ≤ u32ofInt r.vInt → u32ofInt r.vInt ≤ 200 →
      (httpSet design s r).1.minAcceptableRate = u32ofInt r.vInt) := by
  refine ⟨?_, ?_, ?_⟩
  · intro hk hv hlo hhi
    simp only [httpSet, httpSetState, hk]
    rw [if_pos ⟨hv, hlo, hhi⟩, restartI2S_minRate]
    simp [saveAudioSettings, hauto]
  · intro hk hv hlo hhi
    simp only [httpSet, httpSetState, hk]
    rw [if_pos ⟨hv, hlo, hhi⟩, restartI2S_minRate]
    simp [saveAudioSettings, hauto]
  · intro hk hv hlo hhi
    simp only [httpSet, httpSetState, hk]
    rw [if_pos ⟨hv, hlo, hhi⟩]
    simp [saveAudioSettings]

/-- Witness for C2 (amended): a rate change to 32000 recomputes the
threshold for the new configuration, a buffer change to 2048 likewise, and
a manual write sets 50. -/
theorem C2_threshold_amended_witness :
    ((httpSet designAny baseSys ⟨"rate", true, "32000", 32000, 32000⟩).1.minAcceptableRate =
      computeRecommendedMinRate { baseSys with currentSampleRate := u32ofInt 32000 }) ∧
    ((httpSet designAny baseSys ⟨"buffer", true, "2048", 2048, 2048⟩).1.minAcceptableRate =
      computeRecommendedMinRate { baseSys with currentBufferSize := u16ofInt 2048 }) ∧
    ((httpSet designAny baseSys ⟨"min_rate", true, "50", 50, 50⟩).1.minAcceptableRate =
      u32ofInt 50) :=
  ⟨(C2_threshold_amended designAny baseSys ⟨"rate", true, "32000", 32000, 32000⟩ rfl).1
      rfl rfl (by decide) (by decide),
   (C2_threshold_amended designAny baseSys ⟨"buffer", true, "2048", 2048, 2048⟩ rfl).2.1
      rfl rfl (by decide) (by decide),
   (C2_threshold_amended designAny baseSys ⟨"min_rate", true, "50", 50, 50⟩ rfl).2.2
      rfl rfl (by decide) (by decide)⟩

/-! ### HTTP set endpoint response (claim C9) -/

/-- C9: every request to the set endpoint — whatever the key and value,
accepted or rejected — receives the same success body `{"ok":true}`; two
arbitrary requests are indistinguishable by their responses. -/
theorem C9_set_response_uniform (design : HpfDesign) (s s2 : Sys) (r r2 : SetReq) :
    (httpSet design s r).2 = okResponse ∧
    (httpSet design s r).2 = (httpSet design s2 r2).2 :=
  ⟨rfl, rfl⟩

/-! ### StreamPacketizer theorems (claims C5, C6, C10) -/

/-- C5: in the PLAYING state with a connected client, if any of the three
segments (framing, packet header, payload) suffers a short write, streaming
stops while the sequence number, timestamp and sent-packet count keep their
pre-send values, and no device restart happens. -/
theorem C5_short_write_stops (s : Sys) (supply : List Int) (d : List Nat) (n : Nat)
    (hconn : s.clientConnected = true) (hplay : s.isStreaming = true)
    (hfail : rtpWritesOk supply n = false) :
    ((sendRTPPacket s supply d n).1.isStreaming = false) ∧
    ((sendRTPPacket s supply d n).1.rtpSequence = s.rtpSequence) ∧
    ((sendRTPPacket s supply d n).1.rtpTimestamp = s.rtpTimestamp) ∧
    ((sendRTPPacket s supply d n).1.audioPacketsSent = s.audioPacketsSent) ∧
    ((sendRTPPacket s supply d n).1.restarts = s.restarts) := by
  rcases hw1 : writeAllNet 4 supply with ⟨ok1, sup1⟩
  rcases hw2 : writeAllNet 12 sup1 with ⟨ok2, sup2⟩
  rcases hw3 : writeAllNet ((n * 2) % 65536) sup2 with ⟨ok3, sup3⟩
  simp only [rtpWritesOk, hw1, hw2, hw3] at hfail
  simp only [sendRTPPacket, hconn, hw1, hw2, hw3]
  cases ok1 <;> cases ok2 <;> cases ok3 <;> simp_all

/-- Witness for C5: a first-segment short write (the transport accepts 0
bytes) stops streaming and leaves the counters at 7 / 100 / 3. -/
theorem C5_short_write_stops_witness :
    ((sendRTPPacket playSys [0] [1, 2] 2).1.isStreaming = false) ∧
    ((sendRTPPacket playSys [0] [1, 2] 2).1.rtpSequence = playSys.rtpSequence) ∧
    ((sendRTPPacket playSys [0] [1, 2] 2).1.rtpTimestamp = playSys.rtpTimestamp) ∧
    ((sendRTPPacket playSys [0] [1, 2] 2).1.audioPacketsSent = playSys.audioPacketsSent) ∧
    ((sendRTPPacket playSys [0] [1, 2] 2).1.restarts = playSys.restarts) :=
  C5_short_write_stops playSys [0] [1, 2] 2 rfl rfl (by decide)

/-- Peeling one byte off an accepted prefix test. -/
theorem listStartsWith_cons (a : Nat) (s : List Nat) (b : Nat) (p : List Nat)
    (h : listStartsWith (a :: s) (b :: p) = true) :
    a = b ∧ listStartsWith s p = true := by
  simp only [listStartsWith] at h
  split_ifs at h with hab
  exact ⟨hab, h⟩

/-- A request accepted by the `PLAY` prefix test starts with the four
`"PLAY"` bytes. -/
theorem startsWith_play_shape : ∀ req : List Nat,
    listStartsWith req verbPLAY = true →
    ∃ rest, req = 80 :: 76 :: 65 :: 89 :: rest := by
  intro req h
  rw [verbPLAY] at h
  rcases req with _ | ⟨a, req⟩
  · exact absurd h (by simp [listStartsWith])
  obtain ⟨ha, h⟩ := listStartsWith_cons _ _ _ _ h
  rcases req with _ | ⟨b, req⟩
  · exact absurd h (by simp [listStartsWith])
  obtain ⟨hb, h⟩ := listStartsWith_cons _ _ _ _ h
  rcases req with _ | ⟨c, req⟩
  · exact absurd h (by simp [listStartsWith])
  obtain ⟨hc, h⟩ := listStartsWith_cons _ _ _ _ h
  rcases req with _ | ⟨e, req⟩
  · exact absurd h (by simp [listStartsWith])
  obtain ⟨he, -⟩ := listStartsWith_cons _ _ _ _ h
  exact ⟨req, by rw [ha, hb, hc, he]⟩

/-- C6: a fully successful send increments the 16-bit sequence number by
exactly 1 mod `2^16`, advances the 32-bit timestamp by exactly the packet's
sample count mod `2^32` and counts the packet; and every `PLAY` request
resets both to 0 (and starts streaming). -/
theorem C6_sequence_timestamp (s : Sys) (supply : List Int) (d : List Nat) (n : Nat)
    (hconn : s.clientConnected = true)
    (hok : rtpWritesOk supply n = true) :
    ((sendRTPPacket s supply d n).1.rtpSequence = (s.rtpSequence + 1) % 65536) ∧
    ((sendRTPPacket s supply d n).1.rtpTimestamp = (s.rtpTimestamp + n) % 4294967296) ∧
    ((sendRTPPacket s supply d n).1.audioPacketsSent = s.audioPacketsSent + 1) ∧
    (∀ req : List Nat, listStartsWith req verbPLAY = true →
      (handleRTSPCommand s req).rtpSequence = 0 ∧
      (handleRTSPCommand s req).rtpTimestamp = 0 ∧
      (handleRTSPCommand s req).isStreaming = true) := by
  have hsend : ((sendRTPPacket s supply d n).1.rtpSequence = (s.rtpSequence + 1) % 65536) ∧
      ((sendRTPPacket s supply d n).1.rtpTimestamp = (s.rtpTimestamp + n) % 4294967296) ∧
      ((sendRTPPacket s supply d n).1.audioPacketsSent = s.audioPacketsSent + 1) := by
    rcases hw1 : writeAllNet 4 supply with ⟨ok1, sup1⟩
    rcases hw2 : writeAllNet 12 sup1 with ⟨ok2, sup2⟩
    rcases hw3 : writeAllNet ((n * 2) % 65536) sup2 with ⟨ok3, sup3⟩
    simp only [rtpWritesOk, hw1, hw2, hw3] at hok
    simp only [sendRTPPacket, hconn, hw1, hw2, hw3]
    cases ok1 <;> cases ok2 <;> cases ok3 <;> simp_all
  refine ⟨hsend.1, hsend.2.1, hsend.2.2, ?_⟩
  intro req hreq
  obtain ⟨rest, rfl⟩ := startsWith_play_shape req hreq
  simp [handleRTSPCommand, listStartsWith,
        verbOPTIONS, verbDESCRIBE, verbSETUP, verbPLAY, verbTEARDOWN, verbGETPARAM]

/-- Witness for C6: a send at sequence 65535 and timestamp `2^32 - 1` with
128 samples wraps both counters (to 0 and 127), and a concrete
`PLAY rtsp://...` request resets them to 0. -/
theorem C6_sequence_timestamp_witness :
    ((sendRTPPacket wrapSys [4, 12, 256] [1] 128).1.rtpSequence = (65535 + 1) % 65536) ∧
    ((sendRTPPacket wrapSys [4, 12, 256] [1] 128).1.rtpTimestamp =
      (4294967295 + 128) % 4294967296) ∧
    ((handleRTSPCommand wrapSys [80, 76, 65, 89, 32, 114]).rtpSequence = 0 ∧
     (handleRTSPCommand wrapSys [80, 76, 65, 89, 32, 114]).rtpTimestamp = 0) := by
  have h := C6_sequence_timestamp wrapSys [4, 12, 256] [1] 128 rfl (by decide)
  have hp := h.2.2.2 [80, 76, 65, 89, 32, 114] (by decide)
  exact ⟨h.1, h.2.1, hp.1, hp.2.1⟩

/-- C10 counterexample: a call with a disconnected client returns before
the byte swap, so the buffer does not hold the byte-swapped samples after
that call — the claim's "after every call" fails. -/
theorem C10_swap_counterexample :
    ((sendRTPPacket { baseSys with clientConnected := false } [] [1] 1).2.2 = [1]) ∧
    ((sendRTPPacket { baseSys with clientConnected := false } [] [1] 1).2.2 ≠
      ([1] : List Nat).map swap16) := by
  exact ⟨rfl, by decide⟩

/-- C10 as amended: whenever the client is connected (the send is
attempted), the sender byte-swaps the caller's sample buffer in place
before writing, so after the call the buffer holds the byte-swapped
samples — also when a transport write fails and streaming is stopped, and
the payload is never restored to host byte order; a call with a
disconnected client returns early and leaves the buffer untouched. -/
theorem C10_swap_amended (s : Sys) (supply : List Int) (d : List Nat) (n : Nat)
    (hconn : s.clientConnected = true) :
    (sendRTPPacket s supply d n).2.2 = d.map swap16 := by
  rcases hw1 : writeAllNet 4 supply with ⟨ok1, sup1⟩
  rcases hw2 : writeAllNet 12 sup1 with ⟨ok2, sup2⟩
  rcases hw3 : writeAllNet ((n * 2) % 65536) sup2 with ⟨ok3, sup3⟩
  simp only [sendRTPPacket, hconn, hw1, hw2, hw3]
  cases ok1 <;> cases ok2 <;> cases ok3 <;> simp_all

/-- Witness for C10 (amended): with a connected client and a failing
transport, the buffer still ends up byte-swapped. -/
theorem C10_swap_amended_witness :
    (sendRTPPacket { baseSys with clientConnected := true, isStreaming := true }
      [0] [1, 515] 2).2.2 = ([1, 515] : List Nat).map swap16 :=
  C10_swap_amended { baseSys with clientConnected := true, isStreaming := true }
    [0] [1, 515] 2 rfl

/-! ### SignalConditioner theorems (claim C7) -/

/-- The source's two-step clamp followed by the `(int16_t)` cast equals the
saturation function. -/
theorem saturate16_eq (a : ℚ) :
    truncQ (if (if a > 32767 then (32767 : ℚ) else a) < -32768 then (-32768 : ℚ)
            else if a > 32767 then (32767 : ℚ) else a) = saturate16 a := by
  unfold saturate16
  split_ifs <;> first | rfl | decide | linarith

/-- The conditioning loop's clip flag is the or-accumulation of "some
amplified value exceeds 32767", and its outputs are the saturations of the
amplified values. -/
theorem conditionBlock_spec (gain : ℚ) (shift : Nat) (hpOn : Bool) :
    ∀ (raw : List Int) (hpf : Biquad) (c : Bool) (p : ℚ),
      ((conditionBlock gain shift hpOn hpf c p raw).2.1 =
        (c || (ampSeq gain shift hpOn hpf raw).any fun a => decide (|a| > 32767))) ∧
      ((conditionBlock gain shift hpOn hpf c p raw).2.2.2 =
        (ampSeq gain shift hpOn hpf raw).map saturate16) := by
  intro raw
  induction raw with
  | nil =>
      intro hpf c p
      simp [conditionBlock, ampSeq]
  | cons x xs ih =>
      intro hpf c p
      simp only [conditionBlock, ampSeq, List.any_cons, List.map_cons]
      constructor
      · rw [(ih _ _ _).1]
        simp [Bool.or_assoc]
      · rw [(ih _ _ _).2, saturate16_eq]

/-- C7: for every processed audio block, the block's clip flag is set
exactly when at least one amplified sample's magnitude exceeds 32767, the
cumulative clip counter increments by exactly 1 for a clipped block and not
at all otherwise, and every output sample is the saturation of its
amplified value (out-of-range values become exactly 32767 / -32768). -/
theorem C7_clip_saturation (s : Sys) (raw : List Int) :
    ((processAudioBlock s raw).1.audioClippedLastBlock =
      ((ampSeq s.currentGainFactor s.i2sShiftBits s.highpassEnabled s.hpf raw).any
        fun a => decide (|a| > 32767))) ∧
    ((processAudioBlock s raw).1.audioClipCount =
      s.audioClipCount +
        (if (ampSeq s.currentGainFactor s.i2sShiftBits s.highpassEnabled s.hpf raw).any
              (fun a => decide (|a| > 32767)) = true
         then 1 else 0)) ∧
    ((processAudioBlock s raw).2 =
      (ampSeq s.currentGainFactor s.i2sShiftBits s.highpassEnabled s.hpf raw).map saturate16) := by
  have h := conditionBlock_spec s.currentGainFactor s.i2sShiftBits s.highpassEnabled
    raw s.hpf false 0
  simp only [Bool.false_or] at h
  refine ⟨?_, ?_, ?_⟩ <;> simp only [processAudioBlock, h.1, h.2]

/-! ### High-pass coefficient cache theorems (claim C8) -/

/-- C8 counterexample: with the high-pass filter enabled at sample rate
8000 Hz and configured cutoff 10000 Hz, the cutoff is clamped to
`0.45 x 8000 = 3600` and the cache records 3600; immediately after the
recompute the per-block staleness check still reports stale (3600 differs
from the configured 10000), and the next block performs a further
recomputation — contradicting the claim's "including configurations where
the cutoff was clamped". -/
theorem C8_clamped_counterexample :
    (hpfStale (updateHighpassCoeffs designAny
      { baseSys with currentSampleRate := 8000, highpassCutoffHz := 10000 }) = true) ∧
    ((updateHighpassCoeffs designAny
      { baseSys with currentSampleRate := 8000, highpassCutoffHz := 10000 }).hpfConfigCutoff
      = 3600) ∧
    ((streamAudioStep designAny
        (updateHighpassCoeffs designAny
          { baseSys with currentSampleRate := 8000, highpassCutoffHz := 10000 })
        []).1.hpfRecomputes =
      (updateHighpassCoeffs designAny
        { baseSys with currentSampleRate := 8000, highpassCutoffHz := 10000 }).hpfRecomputes
        + 1) := by
  refine ⟨by decide, by decide, by decide⟩

/-- C8 as amended: right after a recompute, as long as the sample rate and
the configured cutoff stay unchanged, the per-block staleness check finds
the cached derivation inputs equal to the current config and no further
recomputation happens — provided the cutoff was not clamped
(`10 ≤ cutoff` and `cutoff < 0.45 x sampleRate`); in a clamped
configuration the cache records the clamped value and the check stays
stale (see the counterexample). -/
theorem C8_lazy_amended (design : HpfDesign) (s : Sys)
    (hon : s.highpassEnabled = true)
    (h10 : 10 ≤ s.highpassCutoffHz)
    (hclamp : 20 * s.highpassCutoffHz < 9 * s.currentSampleRate) :
    (hpfStale (updateHighpassCoeffs design s) = false) ∧
    (∀ raw : List Int,
      (streamAudioStep design (updateHighpassCoeffs design s) raw).1.hpfRecomputes =
        (updateHighpassCoeffs design s).hpfRecomputes) := by
  have hle : (s.highpassCutoffHz : ℚ) ≤ (s.currentSampleRate : ℚ) * (9/20) := by
    have h : ((20 * s.highpassCutoffHz : Nat) : ℚ) < ((9 * s.currentSampleRate : Nat) : ℚ) := by
      exact_mod_cast hclamp
    push_cast at h
    linarith
  have h10q : ¬ ((s.highpassCutoffHz : ℚ) < 10) := by
    apply not_lt.mpr
    exact_mod_cast h10
  have hstale : hpfStale (updateHighpassCoeffs design s) = false := by
    simp only [updateHighpassCoeffs]
    rw [if_neg (by simp [hon])]
    rw [if_neg h10q, if_neg (not_lt.mpr hle)]
    simp [hpfStale, natOfQ]
  refine ⟨hstale, ?_⟩
  intro raw
  simp only [streamAudioStep]
  rw [if_neg (by simp [hstale])]
  rfl

/-- Witness for C8 (amended): the default configuration (48 kHz, 500 Hz
cutoff, filter on) is unclamped; after a recompute the staleness check is
clear and a block performs no further recomputation. -/
theorem C8_lazy_amended_witness :
    (hpfStale (updateHighpassCoeffs designAny baseSys) = false) ∧
    ((streamAudioStep designAny (updateHighpassCoeffs designAny baseSys) [5]).1.hpfRecomputes =
      (updateHighpassCoeffs designAny baseSys).hpfRecomputes) :=
  ⟨(C8_lazy_amended designAny baseSys rfl (by decide) (by decide)).1,
   (C8_lazy_amended designAny baseSys rfl (by decide) (by decide)).2 [5]⟩

/-! ### Parse-buffer safety (claim C4) -/

/-- C4: the parse loop is NOT memory safe.  The two-segment byte stream
`"ABCD\r\n\r\n\r\nABCD"` then `"\r"` (never filling the buffer) drives
`rtspParseBufferPos` to `-3`: the `strstr` scan runs over the whole
NUL-terminated C string, which after the first request's compaction still
contains stale terminator bytes beyond the live cursor, so `headerLen`
exceeds the cursor and `memmove(buf, buf + headerLen, pos - headerLen)`
receives a negative length — converted to a huge `size_t`, a massive
out-of-bounds write (and the next `client.read` would write before the
buffer).  The model flags this as `memFault`. -/
theorem C4_parse_oob_bug :
    ((processRTSP (processRTSP ({ baseSys with clientConnected := true }, initParseSt)
        [65, 66, 67, 68, 13, 10, 13, 10, 13, 10, 65, 66, 67, 68]) [13]).2.pos = -3) ∧
    ((processRTSP (processRTSP ({ baseSys with clientConnected := true }, initParseSt)
        [65, 66, 67, 68, 13, 10, 13, 10, 13, 10, 65, 66, 67, 68]) [13]).2.memFault = true) := by
  refine ⟨by decide, by decide⟩

end BirdMic
